import Mathlib

/-!
Shallow embedding of the selection / mirroring core of the `bdiff` binary
comparison tool, together with proofs of the specified properties.

The repository contains two generations of the hex-view module:
  * `src/hex_view.rs` (the root crate) — embedded below in namespace `Core`;
  * `app/src/hex_view.rs` (the app crate) — embedded in namespace `App`.
The application driver `src/app.rs` (`BdiffApp::update`) is embedded in
namespace `AppUpdate` for the selection-mirroring and view-closing steps.

Machine integers: byte offsets are `usize` in Rust and are modelled as `Nat`;
the signed `isize` delta of `adjust_cur_pos` is modelled as `Int`, with
`(x as isize + delta).max(0) as usize` rendered as `((x : Int) + delta).max 0`
followed by `Int.toNat`. File bytes are `u8`, modelled as `Nat` values (their
numeric range is irrelevant to every property proved here). Fallible IO
(`read_file_bytes`) is modelled by passing the read result explicitly as an
`Except` value.
-/

namespace Bdiff

/-- Rust `HexViewSelectionState` — identical `enum` in both `src/hex_view.rs`
(lines 13–19) and `app/src/hex_view.rs` (lines 26–32). -/
inductive HexViewSelectionState where
  | none
  | selecting
  | selected
deriving DecidableEq, Repr, Inhabited

namespace App

/-- Rust `HexViewSelectionSide` (`app/src/hex_view.rs` lines 34–39); `Hex` is the
`#[default]` variant. -/
inductive HexViewSelectionSide where
  | hex
  | ascii
deriving DecidableEq, Repr, Inhabited

/-- Rust `HexViewSelectionRange` (`app/src/hex_view.rs` lines 20–24). -/
structure HexViewSelectionRange where
  first : Nat
  second : Nat
deriving DecidableEq, Repr

/-- Rust `HexViewSelection` (`app/src/hex_view.rs` lines 41–46). -/
structure HexViewSelection where
  range : HexViewSelectionRange
  state : HexViewSelectionState
  side : HexViewSelectionSide
deriving DecidableEq, Repr

/-- Rust `Default`: zero anchors, `state = None`, `side = Hex`. -/
def HexViewSelection.default : HexViewSelection :=
  { range := { first := 0, second := 0 },
    state := HexViewSelectionState.none,
    side := HexViewSelectionSide.hex }

/-- Rust `HexViewSelection::start` — `self.range.first.min(self.range.second)`. -/
def HexViewSelection.start (s : HexViewSelection) : Nat :=
  min s.range.first s.range.second

/-- Rust `HexViewSelection::end` — `self.range.second.max(self.range.first)`
(`end` is a Lean keyword, hence the underscore). -/
def HexViewSelection.end_ (s : HexViewSelection) : Nat :=
  max s.range.second s.range.first

/-- Rust `HexViewSelection::contains` — state not `None` and
`start() <= grid_pos <= end()`. -/
def HexViewSelection.contains (s : HexViewSelection) (grid_pos : Nat) : Bool :=
  decide (s.state ≠ HexViewSelectionState.none) &&
    decide (s.start ≤ grid_pos) && decide (grid_pos ≤ s.end_)

/-- Rust `HexViewSelection::begin` — both anchors to `grid_pos`, state `Selecting`,
records `side`. -/
def HexViewSelection.begin (s : HexViewSelection) (grid_pos : Nat)
    (side : HexViewSelectionSide) : HexViewSelection :=
  { s with range := { first := grid_pos, second := grid_pos },
           state := HexViewSelectionState.selecting,
           side := side }

/-- Rust `HexViewSelection::update` — unconditionally sets `range.second`. -/
def HexViewSelection.update (s : HexViewSelection) (grid_pos : Nat) :
    HexViewSelection :=
  { s with range := { s.range with second := grid_pos } }

/-- Rust `HexViewSelection::finalize` — sets `range.second` and state `Selected`. -/
def HexViewSelection.finalize (s : HexViewSelection) (grid_pos : Nat) :
    HexViewSelection :=
  { s with range := { s.range with second := grid_pos },
           state := HexViewSelectionState.selected }

/-- Rust `HexViewSelection::clear` — anchors to 0, state `None`, side to default. -/
def HexViewSelection.clear (_s : HexViewSelection) : HexViewSelection :=
  { range := { first := 0, second := 0 },
    state := HexViewSelectionState.none,
    side := HexViewSelectionSide.hex }

/-- Rust `HexViewSelection::adjust_cur_pos` —
`(anchor as isize + delta).max(0) as usize` on both anchors. -/
def HexViewSelection.adjust_cur_pos (s : HexViewSelection) (delta : Int) :
    HexViewSelection :=
  { s with range :=
      { first := (max ((s.range.first : Int) + delta) 0).toNat,
        second := (max ((s.range.second : Int) + delta) 0).toNat } }

/-- Rust `HexView` (`app/src/hex_view.rs` lines 92–107), restricted to the fields
read or written by the methods embedded here (`file.data`, `bytes_per_row`,
`cur_pos`, `pos_locked`, `selection`, `cursor_pos`, `closed`; the purely
visual fields `id`, `num_rows`, `show_*`, `sv`, `dv`, `mt` are not consulted
by any claim). -/
structure HexView where
  data : List Nat
  bytes_per_row : Nat
  cur_pos : Nat
  pos_locked : Bool
  selection : HexViewSelection
  cursor_pos : Option Nat
  closed : Bool
deriving DecidableEq, Repr

/-- Rust `HexView::set_cur_pos` — early-returns when `pos_locked`; otherwise
clamps `val` to `[0, (len / bytes_per_row) * bytes_per_row]` (on `usize` the
lower bound 0 is vacuous, so the clamp is a `min`). -/
def HexView.set_cur_pos (hv : HexView) (val : Nat) : HexView :=
  if hv.pos_locked then hv
  else
    let last_line_start_address :=
      hv.data.length / hv.bytes_per_row * hv.bytes_per_row
    { hv with cur_pos := min val last_line_start_address }

/-- Rust `HexView::adjust_cur_pos` — early-returns when `pos_locked`; otherwise
`(cur_pos as isize + delta).clamp(0, last_line_start_address as isize)`. -/
def HexView.adjust_cur_pos (hv : HexView) (delta : Int) : HexView :=
  if hv.pos_locked then hv
  else
    let last_line_start_address :=
      hv.data.length / hv.bytes_per_row * hv.bytes_per_row
    { hv with cur_pos :=
        (max (min ((hv.cur_pos : Int) + delta) (last_line_start_address : Int))
          0).toNat }

/-- Rust `HexView::reload_file` (`app/src/hex_view.rs` lines 185–197). The method
takes `&mut self`; its IO read `read_file_bytes(self.file.path)` is passed in
as its result, and the pair returned is (the view after the call, the
`Result`). `?` propagates the error before any mutation, so on error the view
is returned untouched; on success `file.data` is replaced wholesale, then the
selection is cleared when both anchors are `>= len`, else each anchor is
clamped with `min(len - 1)`. -/
def HexView.reload_file (hv : HexView) (read_result : Except String (List Nat)) :
    HexView × Except String Unit :=
  match read_result with
  | Except.error e => (hv, Except.error e)
  | Except.ok new_data =>
    let hv := { hv with data := new_data }
    if hv.selection.range.first ≥ hv.data.length ∧
        hv.selection.range.second ≥ hv.data.length then
      ({ hv with selection := hv.selection.clear }, Except.ok ())
    else
      ({ hv with selection :=
        { hv.selection with range :=
          { first := min hv.selection.range.first (hv.data.length - 1),
            second := min hv.selection.range.second (hv.data.length - 1) } } },
       Except.ok ())

/-- Rust `CursorState` (`src/app.rs` lines 434–440). -/
inductive CursorState where
  | hovering
  | pressed
  | stillDown
  | released
deriving DecidableEq, Repr

/-- Rust `HexView::handle_selection` (`app/src/hex_view.rs` lines 420–457). The
egui inputs are passed as booleans: `res_hovered` is `res.hovered()`,
`pointer_in_rect` is "`ctx.input` reports a hover position and it lies in
`res.rect`", `middle_clicked` is `res.middle_clicked()`. The three blocks of
the method run in order on the mutable view. -/
def HexView.handle_selection (hv : HexView) (res_hovered : Bool)
    (cursor_state : CursorState) (row_current_pos : Nat)
    (pointer_in_rect : Bool) (middle_clicked : Bool)
    (side : HexViewSelectionSide) : HexView :=
  let hv :=
    if res_hovered then
      let hv :=
        if cursor_state = CursorState.pressed then
          { hv with selection := hv.selection.begin row_current_pos side }
        else hv
      { hv with cursor_pos := some row_current_pos }
    else hv
  let hv :=
    if pointer_in_rect then
      match cursor_state with
      | App.CursorState.stillDown =>
        if hv.selection.state = HexViewSelectionState.selecting then
          { hv with selection := hv.selection.update row_current_pos }
        else hv
      | CursorState.released =>
        if hv.selection.state = HexViewSelectionState.selecting then
          { hv with selection := hv.selection.finalize row_current_pos }
        else hv
      | _ => hv
    else hv
  if middle_clicked then { hv with selection := hv.selection.clear } else hv

end App

namespace Core

/-- Rust `HexViewSelection` of the root crate (`src/hex_view.rs` lines 21–26):
flat `first`/`second` anchors and a state, no side field. -/
structure HexViewSelection where
  first : Nat
  second : Nat
  state : HexViewSelectionState
deriving DecidableEq, Repr

/-- Rust `HexViewSelection::start` (`src/hex_view.rs`). -/
def HexViewSelection.start (s : HexViewSelection) : Nat :=
  min s.first s.second

/-- Rust `HexViewSelection::end` (`src/hex_view.rs`). -/
def HexViewSelection.end_ (s : HexViewSelection) : Nat :=
  max s.second s.first

/-- Rust `HexViewSelection::contains` (`src/hex_view.rs`). -/
def HexViewSelection.contains (s : HexViewSelection) (grid_pos : Nat) : Bool :=
  decide (s.state ≠ HexViewSelectionState.none) &&
    decide (s.start ≤ grid_pos) && decide (grid_pos ≤ s.end_)

/-- Rust `HexViewSelection::begin` (`src/hex_view.rs`; no side argument). -/
def HexViewSelection.begin (_s : HexViewSelection) (grid_pos : Nat) :
    HexViewSelection :=
  { first := grid_pos, second := grid_pos,
    state := HexViewSelectionState.selecting }

/-- Rust `HexViewSelection::update` (`src/hex_view.rs`). -/
def HexViewSelection.update (s : HexViewSelection) (grid_pos : Nat) :
    HexViewSelection :=
  { s with second := grid_pos }

/-- Rust `HexViewSelection::finalize` (`src/hex_view.rs`). -/
def HexViewSelection.finalize (s : HexViewSelection) (grid_pos : Nat) :
    HexViewSelection :=
  { s with second := grid_pos, state := HexViewSelectionState.selected }

/-- Rust `HexViewSelection::clear` (`src/hex_view.rs`). -/
def HexViewSelection.clear (_s : HexViewSelection) : HexViewSelection :=
  { first := 0, second := 0, state := HexViewSelectionState.none }

/-- Rust `HexView` of the root crate (`src/hex_view.rs` lines 65–81), restricted to
the fields its `reload_file` reads or writes. -/
structure HexView where
  data : List Nat
  selection : HexViewSelection
deriving DecidableEq, Repr

/-- Rust `HexView::reload_file` (`src/hex_view.rs` lines 128–140); same shape as
the app crate's method, with the flat anchor fields. -/
def HexView.reload_file (hv : HexView) (read_result : Except String (List Nat)) :
    HexView × Except String Unit :=
  match read_result with
  | Except.error e => (hv, Except.error e)
  | Except.ok new_data =>
    let hv := { hv with data := new_data }
    if hv.selection.first ≥ hv.data.length ∧
        hv.selection.second ≥ hv.data.length then
      ({ hv with selection := hv.selection.clear }, Except.ok ())
    else
      ({ hv with selection :=
        { hv.selection with
          first := min hv.selection.first (hv.data.length - 1),
          second := min hv.selection.second (hv.data.length - 1) } },
       Except.ok ())

end Core

namespace AppUpdate

/-- Loop body of the mirroring pass in `BdiffApp::update` (`src/app.rs` lines
644–652): a view whose selection differs from the global one receives a copy,
then clears it when its `start()` or `end()` is at or beyond the view's own
data length. -/
def mirror_one (global_selection : App.HexViewSelection) (hv : App.HexView) :
    App.HexView :=
  if hv.selection ≠ global_selection then
    let hv := { hv with selection := global_selection }
    if hv.selection.start ≥ hv.data.length ∨
        hv.selection.end_ ≥ hv.data.length then
      { hv with selection := hv.selection.clear }
    else hv
  else hv

/-- The mirroring pass (`src/app.rs` lines 643–654): runs `mirror_one` over
every open view when `options.mirror_selection` is set. -/
def mirror_step (mirror_selection : Bool)
    (global_selection : App.HexViewSelection)
    (hex_views : List App.HexView) : List App.HexView :=
  if mirror_selection then hex_views.map (mirror_one global_selection)
  else hex_views

/-- The close pass of `BdiffApp::update` (`src/app.rs` lines 656–673):
`hex_views.retain(|hv| !hv.closed)` followed by
`if self.hex_views.is_empty() { self.global_selection.clear(); }`.
Returns the retained views and the (possibly cleared) global selection. -/
def close_step (hex_views : List App.HexView)
    (global_selection : App.HexViewSelection) :
    List App.HexView × App.HexViewSelection :=
  let hex_views := hex_views.filter (fun hv => !hv.closed)
  if hex_views.isEmpty then (hex_views, global_selection.clear)
  else (hex_views, global_selection)

end AppUpdate

/-- A call in a selection script: the mutating operations whose signatures
agree between the two `HexViewSelection` implementations (`begin` differs —
the app crate's takes a side argument — so scripts range over `update`,
`finalize` and `clear`). -/
inductive SelOp where
  | update (pos : Nat)
  | finalize (pos : Nat)
  | clear
deriving DecidableEq, Repr

/-- Dispatch one script call on the root-crate selection. -/
def Core.applyOp (s : Core.HexViewSelection) (op : SelOp) :
    Core.HexViewSelection :=
  match op with
  | SelOp.update pos => s.update pos
  | SelOp.finalize pos => s.finalize pos
  | SelOp.clear => s.clear

/-- Dispatch one script call on the app-crate selection. -/
def App.applyOp (s : App.HexViewSelection) (op : SelOp) :
    App.HexViewSelection :=
  match op with
  | SelOp.update pos => s.update pos
  | SelOp.finalize pos => s.finalize pos
  | SelOp.clear => s.clear

/-- Run a script on the root-crate selection. -/
def Core.runOps (s : Core.HexViewSelection) (ops : List SelOp) :
    Core.HexViewSelection :=
  ops.foldl Core.applyOp s

/-- Run a script on the app-crate selection. -/
def App.runOps (s : App.HexViewSelection) (ops : List SelOp) :
    App.HexViewSelection :=
  ops.foldl App.applyOp s

/-- Projection of the app-crate selection onto the root-crate one: keep the
anchors and the state, drop the `side` field (the root-crate type has no
side). -/
def proj (s : App.HexViewSelection) : Core.HexViewSelection :=
  { first := s.range.first, second := s.range.second, state := s.state }

/-- C4: if `reload_file` fails with an IO error, the view is returned with its
previous byte buffer and selection untouched (no partial replacement) and the
error is surfaced to the caller. -/
theorem reload_file_error_preserves_state (hv : App.HexView) (e : String) :
    (hv.reload_file (Except.error e)).1.data = hv.data ∧
    (hv.reload_file (Except.error e)).1.selection = hv.selection ∧
    (hv.reload_file (Except.error e)).1 = hv ∧
    (hv.reload_file (Except.error e)).2 = Except.error e :=
  ⟨rfl, rfl, rfl, rfl⟩

/-- C5: `begin(pos, side)` sets both anchors to `pos`, state `Selecting` and
the given side, discarding any prior selection; the concrete drag
`begin(5, Hex)`, `update(2)` gives `start = 2`, `end = 5`, state `Selecting`;
a following `finalize(7)` gives `start = 5`, `end = 7`, state `Selected`; and
after `clear()` the state is `None` and `contains` is false at every
offset. -/
theorem selection_drag_scenario :
    (∀ (s : App.HexViewSelection) (pos : Nat) (side : App.HexViewSelectionSide),
      s.begin pos side =
        { range := { first := pos, second := pos },
          state := HexViewSelectionState.selecting, side := side }) ∧
    ((App.HexViewSelection.default.begin 5 App.HexViewSelectionSide.hex).update
        2).start = 2 ∧
    ((App.HexViewSelection.default.begin 5 App.HexViewSelectionSide.hex).update
        2).end_ = 5 ∧
    ((App.HexViewSelection.default.begin 5 App.HexViewSelectionSide.hex).update
        2).state = HexViewSelectionState.selecting ∧
    (((App.HexViewSelection.default.begin 5 App.HexViewSelectionSide.hex).update
        2).finalize 7).start = 5 ∧
    (((App.HexViewSelection.default.begin 5 App.HexViewSelectionSide.hex).update
        2).finalize 7).end_ = 7 ∧
    (((App.HexViewSelection.default.begin 5 App.HexViewSelectionSide.hex).update
        2).finalize 7).state = HexViewSelectionState.selected ∧
    (∀ s : App.HexViewSelection,
      s.clear.state = HexViewSelectionState.none ∧
      ∀ offset : Nat, s.clear.contains offset = false) := by
  refine ⟨fun s pos side => rfl, rfl, rfl, rfl, rfl, rfl, rfl, fun s => ⟨rfl, ?_⟩⟩
  intro offset
  simp [App.HexViewSelection.contains, App.HexViewSelection.clear]

/-- C6: `adjust_cur_pos(delta)` on the app-crate selection shifts both anchors
by `delta`, flooring each at 0 (the resulting anchor, read back as an
integer, is exactly `max (anchor + delta) 0`), and leaves the state
unchanged; in particular `adjust(-100)` with `first = 3` yields anchor 0. -/
theorem adjust_cur_pos_shifts_floored (s : App.HexViewSelection) (delta : Int) :
    ((s.adjust_cur_pos delta).range.first : Int) =
      max ((s.range.first : Int) + delta) 0 ∧
    ((s.adjust_cur_pos delta).range.second : Int) =
      max ((s.range.second : Int) + delta) 0 ∧
    (s.adjust_cur_pos delta).state = s.state ∧
    (s.adjust_cur_pos delta).side = s.side ∧
    (App.HexViewSelection.adjust_cur_pos
      { range := { first := 3, second := 4 },
        state := HexViewSelectionState.selected,
        side := App.HexViewSelectionSide.hex } (-100)).range.first = 0 := by
  refine ⟨?_, ?_, rfl, rfl, by decide⟩ <;>
    exact Int.toNat_of_nonneg (le_max_right _ _)

/-- C9: when `pos_locked` is set, `set_cur_pos` and `adjust_cur_pos` on a
`HexView` return immediately, leaving the whole view (in particular
`cur_pos`) unchanged, for every argument. -/
theorem pos_locked_cur_pos_noop (hv : App.HexView) (val : Nat) (delta : Int)
    (h : hv.pos_locked = true) :
    hv.set_cur_pos val = hv ∧ hv.adjust_cur_pos delta = hv := by
  constructor <;> simp [App.HexView.set_cur_pos, App.HexView.adjust_cur_pos, h]

/-- Witness for C9 at a concrete locked view. -/
theorem pos_locked_cur_pos_noop_witness :
    App.HexView.set_cur_pos
        { data := [1, 2, 3], bytes_per_row := 16, cur_pos := 1,
          pos_locked := true, selection := App.HexViewSelection.default,
          cursor_pos := Option.none, closed := false } 7 =
      { data := [1, 2, 3], bytes_per_row := 16, cur_pos := 1,
        pos_locked := true, selection := App.HexViewSelection.default,
        cursor_pos := Option.none, closed := false } :=
  (pos_locked_cur_pos_noop _ 7 (-4) rfl).1

/-- C2: on a successful reload the buffer is replaced; the selection is
cleared entirely when both anchors are at or beyond the new length, and
otherwise each anchor is independently clamped with `min (length - 1)` while
the selection state (and side) is left unchanged — one out-of-range anchor
alone does not clear. -/
theorem reload_file_ok_clear_or_clamp (hv : App.HexView) (new_data : List Nat) :
    (hv.reload_file (Except.ok new_data)).2 = Except.ok () ∧
    (hv.reload_file (Except.ok new_data)).1.data = new_data ∧
    (if hv.selection.range.first ≥ new_data.length ∧
        hv.selection.range.second ≥ new_data.length then
      (hv.reload_file (Except.ok new_data)).1.selection = hv.selection.clear
    else
      (hv.reload_file (Except.ok new_data)).1.selection.range.first =
          min hv.selection.range.first (new_data.length - 1) ∧
      (hv.reload_file (Except.ok new_data)).1.selection.range.second =
          min hv.selection.range.second (new_data.length - 1) ∧
      (hv.reload_file (Except.ok new_data)).1.selection.state =
          hv.selection.state ∧
      (hv.reload_file (Except.ok new_data)).1.selection.side =
          hv.selection.side) := by
  by_cases h : hv.selection.range.first ≥ new_data.length ∧
      hv.selection.range.second ≥ new_data.length <;>
    simp [App.HexView.reload_file, h]

/-- C7: whenever the close pass of an update step leaves the set of open hex
views empty, the global selection is cleared: its state becomes `None` and
both its anchors are reset to 0. -/
theorem empty_views_clear_global_selection (views : List App.HexView)
    (g : App.HexViewSelection)
    (h : (AppUpdate.close_step views g).1 = []) :
    (AppUpdate.close_step views g).2.state = HexViewSelectionState.none ∧
    (AppUpdate.close_step views g).2.range.first = 0 ∧
    (AppUpdate.close_step views g).2.range.second = 0 := by
  by_cases he : (views.filter (fun hv => !hv.closed)).isEmpty
  · simp [AppUpdate.close_step, he, App.HexViewSelection.clear]
  · exfalso
    simp only [AppUpdate.close_step, he, if_false] at h
    rw [List.isEmpty_iff] at he
    exact he h

/-- Witness for C7: one already-closed view, a non-trivial global selection. -/
theorem empty_views_clear_global_selection_witness :
    (AppUpdate.close_step
      [{ data := [1, 2], bytes_per_row := 16, cur_pos := 0, pos_locked := false,
         selection := App.HexViewSelection.default, cursor_pos := Option.none,
         closed := true }]
      { range := { first := 3, second := 8 },
        state := HexViewSelectionState.selected,
        side := App.HexViewSelectionSide.hex }).2.state =
      HexViewSelectionState.none :=
  (empty_views_clear_global_selection _ _ (by decide)).1

/-- C8: a successful reload to an empty buffer always takes the clear branch
(both anchors are trivially `≥ 0`), so the selection is cleared; and the
clamp branch — the only place `length - 1` is evaluated — is reachable only
when the new length is at least 1, so the `usize` subtraction cannot
underflow. -/
theorem reload_empty_clears_selection_no_underflow :
    (∀ hv : App.HexView,
      (hv.reload_file (Except.ok [])).1.selection = hv.selection.clear ∧
      (hv.reload_file (Except.ok [])).2 = Except.ok ()) ∧
    (∀ (hv : App.HexView) (new_data : List Nat),
      ¬(hv.selection.range.first ≥ new_data.length ∧
          hv.selection.range.second ≥ new_data.length) →
      1 ≤ new_data.length) := by
  constructor
  · intro hv
    constructor <;> simp [App.HexView.reload_file]
  · intro hv new_data h
    by_contra hlen
    exact h ⟨by omega, by omega⟩

/-- Witness for C8: the clamp branch's guard is dischargeable at a one-byte
buffer with an in-range anchor, and the clear branch fires on the empty
buffer. -/
theorem reload_empty_clears_selection_no_underflow_witness :
    1 ≤ [(7 : Nat)].length ∧
    (App.HexView.reload_file
      { data := [1, 2], bytes_per_row := 16, cur_pos := 0, pos_locked := false,
        selection :=
          { range := { first := 0, second := 5 },
            state := HexViewSelectionState.selected,
            side := App.HexViewSelectionSide.hex },
        cursor_pos := Option.none, closed := false }
      (Except.ok [])).1.selection =
      App.HexViewSelection.clear
        { range := { first := 0, second := 5 },
          state := HexViewSelectionState.selected,
          side := App.HexViewSelectionSide.hex } :=
  ⟨reload_empty_clears_selection_no_underflow.2
    { data := [1, 2], bytes_per_row := 16, cur_pos := 0, pos_locked := false,
      selection :=
        { range := { first := 0, second := 5 },
          state := HexViewSelectionState.selected,
          side := App.HexViewSelectionSide.hex },
      cursor_pos := Option.none, closed := false } [7] (by decide),
   (reload_empty_clears_selection_no_underflow.1 _).1⟩

/-- C1: in the mirroring pass, every open view whose selection differs from
the global one receives an absolute-offset copy of it, keeping its own data,
and independently validates it — the copy is cleared exactly when its start
or end is at or beyond that view's data length; in particular, with files of
lengths 10 and 5 and global selection `[3, 8]`, the first view adopts
`[3, 8]` and the second view's selection is cleared. -/
theorem mirror_assigns_and_validates :
    (∀ (g : App.HexViewSelection) (hv : App.HexView),
      hv.selection ≠ g →
      (AppUpdate.mirror_one g hv).data = hv.data ∧
      (AppUpdate.mirror_one g hv).selection =
        (if g.start ≥ hv.data.length ∨ g.end_ ≥ hv.data.length
         then g.clear else g)) ∧
    AppUpdate.mirror_step true
        { range := { first := 3, second := 8 },
          state := HexViewSelectionState.selected,
          side := App.HexViewSelectionSide.hex }
        [{ data := List.replicate 10 0, bytes_per_row := 16, cur_pos := 0,
           pos_locked := false, selection := App.HexViewSelection.default,
           cursor_pos := Option.none, closed := false },
         { data := List.replicate 5 0, bytes_per_row := 16, cur_pos := 0,
           pos_locked := false, selection := App.HexViewSelection.default,
           cursor_pos := Option.none, closed := false }] =
      [{ data := List.replicate 10 0, bytes_per_row := 16, cur_pos := 0,
         pos_locked := false,
         selection :=
           { range := { first := 3, second := 8 },
             state := HexViewSelectionState.selected,
             side := App.HexViewSelectionSide.hex },
         cursor_pos := Option.none, closed := false },
       { data := List.replicate 5 0, bytes_per_row := 16, cur_pos := 0,
         pos_locked := false, selection := App.HexViewSelection.default,
         cursor_pos := Option.none, closed := false }] := by
  constructor
  · intro g hv hne
    by_cases hr : g.start ≥ hv.data.length ∨ g.end_ ≥ hv.data.length <;>
      simp [AppUpdate.mirror_one, hne, hr]
  · decide

/-- Witness for C1 at a concrete differing view: a length-5 view clears the
out-of-range mirrored copy. -/
theorem mirror_assigns_and_validates_witness :
    (AppUpdate.mirror_one
      { range := { first := 3, second := 8 },
        state := HexViewSelectionState.selected,
        side := App.HexViewSelectionSide.hex }
      { data := List.replicate 5 0, bytes_per_row := 16, cur_pos := 0,
        pos_locked := false, selection := App.HexViewSelection.default,
        cursor_pos := Option.none, closed := false }).selection =
      (if (3 : Nat) ≥ 5 ∨ (8 : Nat) ≥ 5 then
        App.HexViewSelection.clear
          { range := { first := 3, second := 8 },
            state := HexViewSelectionState.selected,
            side := App.HexViewSelectionSide.hex }
      else
        { range := { first := 3, second := 8 },
          state := HexViewSelectionState.selected,
          side := App.HexViewSelectionSide.hex }) :=
  (mirror_assigns_and_validates.1 _ _ (by decide)).2

/-- C3 counterexample: on the app-crate selection, calling `update` while the
state is `Selected` (not `Selecting`) is not a no-op — it overwrites the
second anchor. -/
theorem update_not_noop_after_finalize :
    App.HexViewSelection.update
        { range := { first := 5, second := 7 },
          state := HexViewSelectionState.selected,
          side := App.HexViewSelectionSide.hex } 2 ≠
      { range := { first := 5, second := 7 },
        state := HexViewSelectionState.selected,
        side := App.HexViewSelectionSide.hex } := by decide

/-- C3 amended: the raw `HexViewSelection::update` unconditionally writes the
second anchor (leaving `first` and the state unchanged) whatever the state;
the no-op behaviour holds one level up, in `handle_selection`, which guards
the call with `state == Selecting`: a drag-motion (`StillDown`) event leaves
the selection unchanged whenever the state is not `Selecting` — in
particular after `finalize`, until a new `begin`. -/
theorem update_guarded_in_handle_selection :
    (∀ (s : App.HexViewSelection) (pos : Nat),
      (s.update pos).range.second = pos ∧
      (s.update pos).range.first = s.range.first ∧
      (s.update pos).state = s.state) ∧
    (∀ (hv : App.HexView) (pos : Nat) (hovered in_rect : Bool)
        (side : App.HexViewSelectionSide),
      hv.selection.state ≠ HexViewSelectionState.selecting →
      (hv.handle_selection hovered App.CursorState.stillDown pos in_rect false
          side).selection = hv.selection) := by
  refine ⟨fun s pos => ⟨rfl, rfl, rfl⟩, ?_⟩
  intro hv pos hovered in_rect side h
  cases hovered <;> cases in_rect <;>
    simp [App.HexView.handle_selection, h]

/-- Witness for C3's amended theorem: a `StillDown` event on a `Selected`
selection leaves it unchanged. -/
theorem update_guarded_in_handle_selection_witness :
    (App.HexView.handle_selection
      { data := [1, 2, 3], bytes_per_row := 16, cur_pos := 0,
        pos_locked := false,
        selection :=
          { range := { first := 5, second := 7 },
            state := HexViewSelectionState.selected,
            side := App.HexViewSelectionSide.hex },
        cursor_pos := Option.none, closed := false }
      true App.CursorState.stillDown 2 true false
      App.HexViewSelectionSide.hex).selection =
      { range := { first := 5, second := 7 },
        state := HexViewSelectionState.selected,
        side := App.HexViewSelectionSide.hex } :=
  update_guarded_in_handle_selection.2 _ 2 true true
    App.HexViewSelectionSide.hex (by decide)

/-- One script call commutes with the anchor/state projection — helper for
the refinement theorem. -/
theorem proj_applyOp (s : App.HexViewSelection) (op : SelOp) :
    Core.applyOp (proj s) op = proj (App.applyOp s op) := by
  cases op <;> rfl

/-- C10: the two `HexViewSelection` implementations agree. Under the
projection keeping anchors and state, every script of `update`/`finalize`/
`clear` calls commutes; the `start`, `end` and `contains` queries agree; and
the two `reload_file` methods apply the same clear-or-clamp policy to the
anchors (and return the same IO result). -/
theorem selection_implementations_agree :
    (∀ (s : App.HexViewSelection) (ops : List SelOp),
      Core.runOps (proj s) ops = proj (App.runOps s ops)) ∧
    (∀ s : App.HexViewSelection,
      (proj s).start = s.start ∧ (proj s).end_ = s.end_ ∧
      ∀ p : Nat, (proj s).contains p = s.contains p) ∧
    (∀ (hv : App.HexView) (read_result : Except String (List Nat)),
      (Core.HexView.reload_file
          { data := hv.data, selection := proj hv.selection }
          read_result).1.data = (hv.reload_file read_result).1.data ∧
      (Core.HexView.reload_file
          { data := hv.data, selection := proj hv.selection }
          read_result).1.selection =
        proj (hv.reload_file read_result).1.selection ∧
      (Core.HexView.reload_file
          { data := hv.data, selection := proj hv.selection }
          read_result).2 = (hv.reload_file read_result).2) := by
  refine ⟨?_, fun s => ⟨rfl, rfl, fun p => rfl⟩, ?_⟩
  · intro s ops
    induction ops generalizing s with
    | nil => rfl
    | cons op ops ih =>
      simp only [Core.runOps, App.runOps, List.foldl_cons]
      rw [proj_applyOp]
      exact ih (App.applyOp s op)
  · intro hv read_result
    cases read_result with
    | error e => exact ⟨rfl, rfl, rfl⟩
    | ok new_data =>
      by_cases h : hv.selection.range.first ≥ new_data.length ∧
          hv.selection.range.second ≥ new_data.length <;>
        simp [Core.HexView.reload_file, App.HexView.reload_file, proj, h,
          Core.HexViewSelection.clear, App.HexViewSelection.clear]

end Bdiff
